/-
Verification of the conversational-finance core of the telegram-finance-bot
repository: a shallow embedding in Lean 4 of the guided-input state machines
(src/app/bot/handlers/transactions.py, src/app/bot/handlers/budgets.py), the
entity-resolution and service layer (src/app/services/transaction_service.py,
src/app/services/budget_service.py) and the aggregation queries
(src/app/database/queries.py), together with theorems settling the spec
claims about them.

Conventions of the embedding:
* Python `Decimal` amounts are modelled as `ℚ` (Decimal arithmetic used here
  is exact: sums, differences, comparisons; division appears only in the
  budget-alert percentage and is modelled exactly).
* Python `datetime` values are modelled by the `DateTime` structure below,
  ordered chronologically via a monotone encoding.
* The relational store is modelled as in-memory lists of rows with
  auto-increment id counters; SQLAlchemy `session.add` + `commit` appends.
* Strings are Lean `String`s; Python `str.strip` is modelled on the ASCII
  whitespace characters, and `str.lower` by an ASCII character map.
-/
import Mathlib

/-- Embeds `TransactionType` of src/app/database/schemas.py:
`INCOME = "income"`, `EXPENSE = "expense"`. -/
inductive Kind where
  | income
  | expense
deriving DecidableEq

/-- Model of a Python `datetime` value (microseconds are omitted: every
datetime constructed by the embedded code has microsecond 0, and no claim
distinguishes finer than seconds). -/
structure DateTime where
  year : Nat
  month : Nat
  day : Nat
  hour : Nat
  minute : Nat
  second : Nat
deriving DecidableEq

/-- Monotone encoding of a `DateTime`: for field values in their calendar
ranges (month ≤ 12 < 13, day ≤ 31 < 32, hour < 24, minute, second < 60)
this is strictly monotone with respect to chronological order, so comparing
encodings models Python datetime comparison. -/
def DateTime.encode (t : DateTime) : Nat :=
  ((((t.year * 13 + t.month) * 32 + t.day) * 24 + t.hour) * 60 + t.minute) * 60 + t.second

/-- Chronological order on `DateTime` (models `<=` on Python datetimes). -/
def dtLe (a b : DateTime) : Prop := a.encode ≤ b.encode

/-- Strict chronological order on `DateTime` (models `<` on Python datetimes). -/
def dtLt (a b : DateTime) : Prop := a.encode < b.encode

instance (a b : DateTime) : Decidable (dtLe a b) :=
  inferInstanceAs (Decidable (a.encode ≤ b.encode))

instance (a b : DateTime) : Decidable (dtLt a b) :=
  inferInstanceAs (Decidable (a.encode < b.encode))

/-- ASCII whitespace recognised by Python `str.strip()` (space, tab, newline,
carriage return, vertical tab, form feed); the unicode whitespace Python also
strips does not occur in any input considered here. -/
def isPySpace (c : Char) : Bool :=
  c = ' ' || c = '\t' || c = '\n' || c = '\r' || c.val = 11 || c.val = 12

/-- Model of Python `str.strip()` on the character list of a string. -/
def trimChars (cs : List Char) : List Char :=
  ((cs.dropWhile isPySpace).reverse.dropWhile isPySpace).reverse

/-- Model of Python `str.strip()`. -/
def pyStrip (s : String) : String := ⟨trimChars s.data⟩

/-- Model of Python `str.lower()` as a character map. `Char.toLower` lowers
the ASCII range only; Python also lowers non-ASCII letters, but every
case-insensitive comparison modelled here is applied to both sides, and the
claims' inputs vary case only in ASCII. -/
def pyLower (s : String) : String := ⟨s.data.map Char.toLower⟩

/-- Model of Python `str.replace(',', '.')`: both pattern and replacement are
single characters, so the substring replacement is a character map. -/
def replaceCommaWithDot (cs : List Char) : List Char :=
  cs.map (fun c => if c = ',' then '.' else c)

/-- Numeric value of a digit character (only applied to digits). -/
def digitVal (c : Char) : Nat := c.toNat - '0'.toNat

/-- Value of a digit run read most-significant first. -/
def digitsVal (cs : List Char) : Nat :=
  cs.foldl (fun acc c => acc * 10 + digitVal c) 0

/-
Executable rational arithmetic. The rational operations of the ambient
library are deliberately non-reducing, which would prevent witnesses from
being checked by evaluation, so the embedding routes every arithmetic step
through `mkRat`-based operations; each is proved equal to the corresponding
standard operation on `ℚ` below, so spec-level theorems can still be stated
with ordinary `+`, `-`, `*`, `/`.
-/

/-- Executable addition on `ℚ` (equals `a + b`, see `qadd_eq`). -/
def qadd (a b : ℚ) : ℚ := mkRat (a.num * b.den + b.num * a.den) (a.den * b.den)

/-- Executable subtraction on `ℚ` (equals `a - b`, see `qsub_eq`). -/
def qsub (a b : ℚ) : ℚ := mkRat (a.num * b.den - b.num * a.den) (a.den * b.den)

/-- Executable multiplication on `ℚ` (equals `a * b`, see `qmul_eq`). -/
def qmul (a b : ℚ) : ℚ := mkRat (a.num * b.num) (a.den * b.den)

/-- Executable inverse on `ℚ` (equals `a⁻¹`, see `qinv_eq`; the inverse of 0
is 0). -/
def qinv (a : ℚ) : ℚ :=
  if a.num < 0 then mkRat (-(a.den : Int)) a.num.natAbs
  else if 0 < a.num then mkRat (a.den : Int) a.num.natAbs
  else a

/-- Executable division on `ℚ` (equals `a / b`, see `qdiv_eq`;
division by zero yields 0, matching the `ℚ` convention). -/
def qdiv (a b : ℚ) : ℚ := qmul a (qinv b)

/-- Executable list sum on `ℚ` (equals `l.sum`, see `qsum_eq`); models SQL
`SUM(...)` over the listed values, which is exact on decimals. -/
def qsum (l : List ℚ) : ℚ := l.foldr qadd 0

/-- Parses an unsigned decimal literal: digit run, optionally followed by a
period and a second digit run, with at least one digit overall (Python
`Decimal` accepts `"1."` and `".5"` but not `"."` or `""`). The value of
`"a.b"` is the exact rational (a·10^|b| + b) / 10^|b|. -/
def parseUnsignedDecimal (cs : List Char) : Option ℚ :=
  let ip := cs.takeWhile (·.isDigit)
  let rest := cs.dropWhile (·.isDigit)
  match rest with
  | [] => if ip.isEmpty then none else some (mkRat (digitsVal ip) 1)
  | '.' :: fp =>
      if fp.all (·.isDigit) && !(ip.isEmpty && fp.isEmpty) then
        some (mkRat (digitsVal ip * 10 ^ fp.length + digitsVal fp) (10 ^ fp.length))
      else none
  | _ => none

/-- Embeds the `Decimal(amount_text)` constructor call of the amount handlers
on plain decimal literals: an optional sign followed by an unsigned decimal
literal. The exponent (`"1e3"`), `"Infinity"` and `"NaN"` forms of the
`Decimal` grammar are not modelled; no claim input uses them. A `ValueError`
or `InvalidOperation` from the constructor is modelled by `none`. -/
def parseDecimal (s : String) : Option ℚ :=
  match s.data with
  | '+' :: cs => parseUnsignedDecimal cs
  | '-' :: cs => (parseUnsignedDecimal cs).map Neg.neg
  | cs => parseUnsignedDecimal cs

/-- Normalization applied by `amount_handler`
(src/app/bot/handlers/transactions.py line 74):
`update.message.text.replace(',', '.').strip()`. -/
def txNormalizeAmount (s : String) : String :=
  ⟨trimChars (replaceCommaWithDot s.data)⟩

/-- Normalization applied by `budget_amount_handler`
(src/app/bot/handlers/budgets.py line 169):
`update.message.text.strip().replace(',', '.')`. -/
def budgetNormalizeAmount (s : String) : String :=
  ⟨replaceCommaWithDot (trimChars s.data)⟩

/-- The maximum budget amount literal `Decimal('999999999.99')` of
src/app/bot/handlers/budgets.py line 175, as the exact rational
99999999999/100. -/
def maxAmount : ℚ := mkRat 99999999999 100

/-- Amount validation of `amount_handler` (transactions.py lines 73-88, 142):
parse after normalizing; reject a parse failure or a value `<= 0`. The
handler performs no upper-bound check. -/
def txAmountValid (s : String) : Bool :=
  match parseDecimal (txNormalizeAmount s) with
  | none => false
  | some q => decide (0 < q)

/-- Amount validation of `budget_amount_handler` (budgets.py lines 169-189):
parse after normalizing; reject a parse failure, a value `<= 0`, or a value
greater than `Decimal('999999999.99')`. -/
def budgetAmountValid (s : String) : Bool :=
  match parseDecimal (budgetNormalizeAmount s) with
  | none => false
  | some q => decide (0 < q) && decide (q ≤ maxAmount)

/-- Spec-side amount rule, following the claim's words: replace a comma
decimal separator with a period, trim, and accept exactly the values that
parse as a decimal number strictly greater than 0 and at most
999,999,999.99. -/
def specAmountAccepts (s : String) : Bool :=
  match parseDecimal ⟨trimChars (replaceCommaWithDot s.data)⟩ with
  | none => false
  | some q => decide (0 < q) && decide (q ≤ maxAmount)

/-
The relational store (src/app/database/models.py). Rows carry the columns the
claims depend on; `is_active` columns default to true (`bool_active`,
models.py line 28). Auto-increment primary keys are modelled by per-table
counters; `session.add` + `commit` appends the new row.
-/

/-- Row of the `users` table (models.py lines 35-47). `telegram_id` is
declared unique; Telegram ids are nonnegative, so `Nat`. -/
structure UserRow where
  id : Nat
  telegram_id : Nat
  username : Option String
  first_name : Option String
  is_active : Bool
deriving DecidableEq

/-- Row of the `categories` table (models.py lines 72-82). -/
structure CategoryRow where
  id : Nat
  name : String
  description : Option String
  user_id : Nat
  transaction_type : Kind
  is_active : Bool
deriving DecidableEq

/-- Row of the `transactions` table (models.py lines 98-109). -/
structure TransactionRow where
  id : Nat
  amount : ℚ
  description : Option String
  transaction_type : Kind
  user_id : Nat
  category_id : Nat
  transaction_date : DateTime
deriving DecidableEq

/-- Row of the `budgets` table (models.py lines 116-129). `end_date` is
declared `nullable=False` (line 127), so it is modelled as a plain
`DateTime`; the `end_date IS NULL` disjunct of
`get_active_budgets_with_spending` is dead under this schema. The stored
`spent_amount` column (default 0) is never read by any query. -/
structure BudgetRow where
  id : Nat
  name : String
  amount : ℚ
  spent_amount : ℚ
  user_id : Nat
  category_id : Nat
  start_date : DateTime
  end_date : DateTime
  is_active : Bool
deriving DecidableEq

/-- The in-memory model of the relational store. -/
structure Store where
  users : List UserRow
  categories : List CategoryRow
  transactions : List TransactionRow
  budgets : List BudgetRow
  nextUserId : Nat
  nextCategoryId : Nat
  nextTransactionId : Nat
  nextBudgetId : Nat
deriving DecidableEq

/-- Embeds `UserQueries.create_user` (queries.py lines 20-37). -/
def createUser (store : Store) (telegramId : Nat)
    (username firstName : Option String) : UserRow × Store :=
  let u : UserRow := ⟨store.nextUserId, telegramId, username, firstName, true⟩
  (u, { store with users := store.users ++ [u], nextUserId := store.nextUserId + 1 })

/-- Embeds `UserQueries.get_user_by_telegram_id` (queries.py lines 39-44);
`scalar_one_or_none` is a lookup of the row with that `telegram_id` (the
column is unique, so at most one row matches). -/
def getUserByTelegramId (store : Store) (telegramId : Nat) : Option UserRow :=
  store.users.find? (fun u => u.telegram_id = telegramId)

/-- Embeds `CategoryQueries.create_category` (queries.py lines 66-80). -/
def createCategory (store : Store) (name : String) (userId : Nat)
    (k : Kind) : CategoryRow × Store :=
  let c : CategoryRow := ⟨store.nextCategoryId, name, none, userId, k, true⟩
  (c, { store with categories := store.categories ++ [c],
                   nextCategoryId := store.nextCategoryId + 1 })

/-- Lexicographic code-point comparison of character lists. -/
def charListLe : List Char → List Char → Bool
  | [], _ => true
  | _ :: _, [] => false
  | a :: as, b :: bs =>
      if a.val < b.val then true
      else if b.val < a.val then false
      else charListLe as bs

/-- Name order used by the `ORDER BY name` clauses, modelled as code-point
lexicographic comparison (the store's text collation; no claim depends on
the exact collation, only on which rows appear). -/
def nameLe (a b : String) : Prop := charListLe a.data b.data = true

instance (a b : String) : Decidable (nameLe a b) :=
  inferInstanceAs (Decidable (charListLe a.data b.data = true))

/-- Embeds `CategoryQueries.get_user_categories` (queries.py lines 82-98):
the user's rows with `is_active == True`, optionally restricted to a
transaction type, ordered by name. -/
def getUserCategories (store : Store) (userId : Nat)
    (k : Option Kind) : List CategoryRow :=
  List.insertionSort (fun a b => nameLe a.name b.name)
    (store.categories.filter (fun c =>
      decide (c.user_id = userId) && c.is_active &&
        (match k with
         | none => true
         | some t => decide (c.transaction_type = t))))

/-- Embeds `TransactionQueries.create_transaction` (queries.py lines
104-121); the handlers always pass `transaction_date=None`, so the date
defaults to `datetime.utcnow()`, supplied here as `now`. -/
def createTransaction (store : Store) (amount : ℚ) (userId categoryId : Nat)
    (k : Kind) (description : Option String) (txDate : Option DateTime)
    (now : DateTime) : TransactionRow × Store :=
  let t : TransactionRow :=
    ⟨store.nextTransactionId, amount, description, k, userId, categoryId,
      txDate.getD now⟩
  (t, { store with transactions := store.transactions ++ [t],
                   nextTransactionId := store.nextTransactionId + 1 })

/-- Embeds `BudgetQueries.create_budget` (queries.py lines 191-207); the
`spent_amount` column takes its schema default 0. -/
def createBudget (store : Store) (name : String) (amount : ℚ)
    (userId categoryId : Nat) (startDate endDate : DateTime) :
    BudgetRow × Store :=
  let b : BudgetRow :=
    ⟨store.nextBudgetId, name, amount, 0, userId, categoryId,
      startDate, endDate, true⟩
  (b, { store with budgets := store.budgets ++ [b],
                   nextBudgetId := store.nextBudgetId + 1 })

/-
Entity resolution (src/app/services/transaction_service.py lines 31-57 and
src/app/services/budget_service.py lines 31-57 inline the same two
get-or-create sequences; they are embedded once each).
-/

/-- Embeds the get-or-create user lookup at the start of
`TransactionService.add_transaction` and `BudgetService.create_budget`:
look up by telegram id; if absent, create with the seed profile
`username=f"user_{telegram_id}"`, `first_name="Пользователь"`. -/
def resolveUser (store : Store) (telegramId : Nat) : UserRow × Store :=
  match getUserByTelegramId store telegramId with
  | some u => (u, store)
  | none => createUser store telegramId
      (some ("user_" ++ toString telegramId)) (some "Пользователь")

/-- Embeds the get-or-create category lookup of
`TransactionService.add_transaction` / `BudgetService.create_budget`: scan
the user's active categories of the given kind for the first
case-insensitive name match (`cat.name.lower() == category_name.lower()`,
modelled by `pyLower`);
if none, create a category with the exact entered name. -/
def resolveCategory (store : Store) (userId : Nat) (categoryName : String)
    (k : Kind) : CategoryRow × Store :=
  let categories := getUserCategories store userId (some k)
  match categories.find? (fun cat => pyLower cat.name = pyLower categoryName) with
  | some cat => (cat, store)
  | none => createCategory store categoryName userId k

/-- Embeds `TransactionService.add_transaction` (transaction_service.py
lines 20-70): resolve user, resolve category, insert the transaction. -/
def addTransaction (store : Store) (telegramId : Nat) (amount : ℚ)
    (categoryName : String) (k : Kind) (description : Option String)
    (txDate : Option DateTime) (now : DateTime) : TransactionRow × Store :=
  let (user, store1) := resolveUser store telegramId
  let (category, store2) := resolveCategory store1 user.id categoryName k
  createTransaction store2 amount user.id category.id k description txDate now

/-- Embeds `BudgetService.create_budget` (budget_service.py lines 20-70):
resolve user, resolve an expense category (the kind is fixed to expense for
budgets), insert the budget. -/
def createBudgetService (store : Store) (telegramId : Nat) (name : String)
    (amount : ℚ) (categoryName : String) (startDate endDate : DateTime) :
    BudgetRow × Store :=
  let (user, store1) := resolveUser store telegramId
  let (category, store2) := resolveCategory store1 user.id categoryName Kind.expense
  createBudget store2 name amount user.id category.id startDate endDate

/-
Aggregation queries (src/app/database/queries.py).
-/

/-- One row of the grouped per-category sum
(`get_transactions_sum_by_category` result entries): category name, total
amount, transaction count. -/
structure CatSum where
  category_name : String
  total_amount : ℚ
  transaction_count : Nat
deriving DecidableEq

/-- Descending order on per-category totals used by
`ORDER BY total_amount DESC` (ties are broken arbitrarily by SQL; the
embedding keeps the grouping order on ties). -/
def catSumGE (a b : CatSum) : Prop := b.total_amount ≤ a.total_amount

instance (a b : CatSum) : Decidable (catSumGE a b) :=
  inferInstanceAs (Decidable (b.total_amount ≤ a.total_amount))

instance : IsTotal CatSum catSumGE :=
  ⟨fun a b => le_total b.total_amount a.total_amount⟩

instance : IsTrans CatSum catSumGE :=
  ⟨fun _ _ _ hab hbc => le_trans hbc hab⟩

/-- Embeds `TransactionQueries.get_transactions_sum_by_category` (queries.py
lines 153-185): inner-join transactions to categories, keep the user's rows
of the given type with `start_date <= transaction_date <= end_date` (both
ends inclusive), group by category, and order by total descending. -/
def getTransactionsSumByCategory (store : Store) (userId : Nat)
    (startDate endDate : DateTime) (k : Kind) : List CatSum :=
  let rows := store.transactions.filter (fun t =>
    decide (t.user_id = userId) && decide (t.transaction_type = k) &&
      decide (dtLe startDate t.transaction_date) &&
      decide (dtLe t.transaction_date endDate))
  let groups := store.categories.filterMap (fun c =>
    let g := rows.filter (fun t => decide (t.category_id = c.id))
    if g.isEmpty then none
    else some ⟨c.name, qsum (g.map (fun t => t.amount)), g.length⟩)
  List.insertionSort catSumGE groups

/-- One entry of the `get_active_budgets_with_spending` result: the budget
row, the joined category name, and the computed spent/remaining/exceeded
fields. -/
structure BudgetEntry where
  budget : BudgetRow
  category_name : String
  spent_amount : ℚ
  remaining_amount : ℚ
  is_exceeded : Bool
deriving DecidableEq

/-- Embeds `BudgetQueries.get_active_budgets_with_spending` (queries.py
lines 209-264): select the user's active budgets with `end_date >= now`
(the `end_date IS NULL` disjunct is dead, `end_date` being non-nullable),
inner-joined to their category, ordered by budget name; for each, spent is
the sum of the user's expense transactions in the budget's category with
`budget.start_date <= transaction_date <= budget.end_date`, remaining is
`amount - spent`, exceeded is `spent > amount`. -/
def getActiveBudgetsWithSpending (store : Store) (userId : Nat)
    (now : DateTime) : List BudgetEntry :=
  let rows := List.insertionSort (fun a b => nameLe a.name b.name)
    (store.budgets.filter (fun b =>
      decide (b.user_id = userId) && b.is_active && decide (dtLe now b.end_date)))
  rows.filterMap (fun b =>
    (store.categories.find? (fun c => c.id = b.category_id)).map (fun c =>
      let spent := qsum ((store.transactions.filter (fun t =>
        decide (t.user_id = userId) && decide (t.category_id = b.category_id) &&
          decide (t.transaction_type = Kind.expense) &&
          decide (dtLe b.start_date t.transaction_date) &&
          decide (dtLe t.transaction_date b.end_date))).map (fun t => t.amount))
      ⟨b, c.name, spent, qsub b.amount spent, decide (b.amount < spent)⟩))

/-- The monthly summary returned by `AnalyticsQueries.get_monthly_summary`
(queries.py lines 348-355). -/
structure MonthlySummary where
  year : Nat
  month : Nat
  total_income : ℚ
  total_expenses : ℚ
  balance : ℚ
  top_expense_categories : List CatSum
deriving DecidableEq

/-- Embeds `AnalyticsQueries.get_monthly_summary` (queries.py lines
305-355): totals sum the user's transactions of each type with
`start_date <= transaction_date < end_date` where `start_date` is the first
instant of the month and `end_date` the first instant of the next month
(December rolls over to January); the top expense categories come from
`get_transactions_sum_by_category` called with the same two instants — whose
date filter is inclusive at `end_date` — truncated to 5 entries. -/
def getMonthlySummary (store : Store) (userId : Nat) (year month : Nat) :
    MonthlySummary :=
  let startDate : DateTime := ⟨year, month, 1, 0, 0, 0⟩
  let endDate : DateTime :=
    if month = 12 then ⟨year + 1, 1, 1, 0, 0, 0⟩ else ⟨year, month + 1, 1, 0, 0, 0⟩
  let totalIncome := qsum ((store.transactions.filter (fun t =>
    decide (t.user_id = userId) && decide (t.transaction_type = Kind.income) &&
      decide (dtLe startDate t.transaction_date) &&
      decide (dtLt t.transaction_date endDate))).map (fun t => t.amount))
  let totalExpenses := qsum ((store.transactions.filter (fun t =>
    decide (t.user_id = userId) && decide (t.transaction_type = Kind.expense) &&
      decide (dtLe startDate t.transaction_date) &&
      decide (dtLt t.transaction_date endDate))).map (fun t => t.amount))
  let topCategories :=
    getTransactionsSumByCategory store userId startDate endDate Kind.expense
  ⟨year, month, totalIncome, totalExpenses, qsub totalIncome totalExpenses,
    topCategories.take 5⟩

/-
Budget alerts (src/app/services/budget_service.py lines 85-109). The alert
texts are Russian template strings; the embedding keeps their discriminating
content (which branch fired, for which budget/category, with which number)
and elides the surrounding template.
-/

/-- A budget alert emitted by `check_budget_alerts`: either the exceeded
alert with the overrun `spent - amount`, or the near-limit alert with the
percentage used. -/
inductive BudgetAlert where
  | exceeded (budgetName categoryName : String) (overrun : ℚ)
  | nearLimit (budgetName categoryName : String) (percentageUsed : ℚ)
deriving DecidableEq

/-- The percentage computation of `check_budget_alerts` (budget_service.py
line 96): `(spent_amount / budget.amount * 100) if budget.amount > 0 else 0`. -/
def percentageUsed (e : BudgetEntry) : ℚ :=
  if 0 < e.budget.amount then qmul (qdiv e.spent_amount e.budget.amount) 100 else 0

/-- The per-budget alert decision of `check_budget_alerts` (budget_service.py
lines 91-107): the exceeded alert if the entry's `is_exceeded` flag is set,
else the near-limit alert if the percentage used is at least 80, else no
alert. -/
def alertFor (e : BudgetEntry) : Option BudgetAlert :=
  if e.is_exceeded then
    some (.exceeded e.budget.name e.category_name (qsub e.spent_amount e.budget.amount))
  else if 80 ≤ percentageUsed e then
    some (.nearLimit e.budget.name e.category_name (percentageUsed e))
  else none

/-- Embeds `BudgetService.get_user_budgets` (budget_service.py lines 72-83):
empty when the user is unknown, else the active-budgets-with-spending query. -/
def getUserBudgets (store : Store) (telegramId : Nat) (now : DateTime) :
    List BudgetEntry :=
  match getUserByTelegramId store telegramId with
  | none => []
  | some u => getActiveBudgetsWithSpending store u.id now

/-- Embeds `BudgetService.check_budget_alerts` (budget_service.py lines
85-109): the alert decisions over the user's budget entries, in order,
dropping the budgets that produce no alert. -/
def checkBudgetAlerts (store : Store) (telegramId : Nat) (now : DateTime) :
    List BudgetAlert :=
  (getUserBudgets store telegramId now).filterMap alertFor

/-
Guided-input state machines (src/app/bot/handlers/transactions.py and
src/app/bot/handlers/budgets.py). A conversation turn is a chat event —
either a text message or an inline-button callback with its data string —
routed by the `ConversationHandler` registration to the handler of the
current state. A handler that raises an unhandled Python exception leaves
the conversation state and collected data unchanged; this outcome is
modelled by `Outcome.raised`.
-/

/-- An input event delivered to a conversation: free text or a button
callback carrying its data string. -/
inductive ChatEvent where
  | text (s : String)
  | callback (data : String)
deriving DecidableEq

/-- The observable outcome of one conversation turn: a (re-)prompt that
keeps the flow alive, the cancelled terminal, the committed terminal, a
reported failure terminal, or an unhandled exception. -/
inductive Outcome where
  | prompt
  | cancelled
  | committed
  | failed
  | raised
deriving DecidableEq

/-- Model of Python `query.data.replace("category_", "")` (transactions.py
line 164): every occurrence of the 9-character pattern is removed, scanning
left to right. -/
def stripCategoryTag : List Char → List Char
  | 'c' :: 'a' :: 't' :: 'e' :: 'g' :: 'o' :: 'r' :: 'y' :: '_' :: rest =>
      stripCategoryTag rest
  | c :: rest => c :: stripCategoryTag rest
  | [] => []

/-- Model of Python `query.data.replace("budget_cat_", "")` (budgets.py
line 261): every occurrence of the 11-character pattern is removed. -/
def stripBudgetCatTag : List Char → List Char
  | 'b' :: 'u' :: 'd' :: 'g' :: 'e' :: 't' :: '_' :: 'c' :: 'a' :: 't' :: '_' :: rest =>
      stripBudgetCatTag rest
  | c :: rest => c :: stripBudgetCatTag rest
  | [] => []

/-- Model of Python `s.startswith(tag)` on character lists. -/
def hasTag (tag : List Char) (cs : List Char) : Bool := tag.isPrefixOf cs

/-- States of the transaction-capture conversation (transactions.py line
26: `WAITING_AMOUNT, WAITING_DESCRIPTION, WAITING_CATEGORY = range(3)`),
plus the `ConversationHandler.END` terminal. -/
inductive TxState where
  | waitingAmount
  | waitingCategory
  | waitingDescription
  | done
deriving DecidableEq

/-- The `context.user_data` fields collected by the transaction flow. -/
structure TxData where
  transactionType : Option Kind
  amount : Option ℚ
  categoryName : Option String
deriving DecidableEq

/-- The cleared `context.user_data` (`context.user_data.clear()`). -/
def TxData.empty : TxData := ⟨none, none, none⟩

/-- Embeds `add_income_handler` (transactions.py lines 29-47): store the
income type in `user_data` (other keys are untouched) and await the amount. -/
def add_income_handler (d : TxData) : TxState × TxData :=
  (.waitingAmount, { d with transactionType := some Kind.income })

/-- Embeds `add_expense_handler` (transactions.py lines 50-68). -/
def add_expense_handler (d : TxData) : TxState × TxData :=
  (.waitingAmount, { d with transactionType := some Kind.expense })

/-- Embeds `amount_handler` (transactions.py lines 71-153): normalize and
parse the text; on a parse error or a value `<= 0`, re-prompt in the same
state; otherwise store the amount and await the category. -/
def amount_handler (d : TxData) (s : String) : TxState × TxData :=
  match parseDecimal (txNormalizeAmount s) with
  | none => (.waitingAmount, d)
  | some amount =>
      if amount ≤ 0 then (.waitingAmount, d)
      else (.waitingCategory, { d with amount := some amount })

/-- Embeds `category_handler` (transactions.py lines 156-215): a callback
`category_other` re-prompts in the same state; a callback `category_<name>`
stores the name and awaits the description; free text stores the stripped
text as the category name — with no length check — and awaits the
description. -/
def category_handler (d : TxData) (ev : ChatEvent) : TxState × TxData :=
  match ev with
  | .callback data =>
      if hasTag "category_".data data.data then
        let categoryName : String := ⟨stripCategoryTag data.data⟩
        if categoryName = "other" then (.waitingCategory, d)
        else (.waitingDescription, { d with categoryName := some categoryName })
      else (.waitingCategory, d)
  | .text s =>
      (.waitingDescription, { d with categoryName := some (pyStrip s) })

/-- The commit common to `description_skip_handler` and
`description_handler` (transactions.py lines 224-256 and 266-301): read the
collected fields from `user_data`, call
`TransactionService.add_transaction`, clear `user_data` and end. A missing
`user_data` key would raise `KeyError` before any write, leaving state and
data unchanged. -/
def commitTransaction (store : Store) (telegramId : Nat) (d : TxData)
    (description : Option String) (now : DateTime) :
    TxState × TxData × Store × Outcome :=
  match d.amount, d.categoryName, d.transactionType with
  | some amount, some categoryName, some k =>
      let store2 := (addTransaction store telegramId amount categoryName k
        description none now).2
      (.done, TxData.empty, store2, .committed)
  | _, _, _ => (.waitingDescription, d, store, .raised)

/-- Embeds `description_handler` (transactions.py lines 259-301): strip the
text, map the skip words (`"пропустить"`, `"skip"`, `"-"`, case-insensitive)
to no description, and commit. -/
def description_handler (store : Store) (telegramId : Nat) (d : TxData)
    (s : String) (now : DateTime) : TxState × TxData × Store × Outcome :=
  let stripped := pyStrip s
  let description :=
    if pyLower stripped = "пропустить" || pyLower stripped = "skip" ||
        pyLower stripped = "-" then none
    else some stripped
  commitTransaction store telegramId d description now

/-- Embeds `cancel_handler` (transactions.py lines 349-364): report the
cancellation, clear `user_data`, end the conversation. -/
def cancel_handler : TxState × TxData × Outcome :=
  (.done, TxData.empty, .cancelled)

/-- One turn of the transaction-capture conversation, as routed by the
`ConversationHandler` registration (transactions.py lines 371-440): in each
state the cancel callback is handled first; text goes to the state's message
handler; callbacks matching `^category_` (in the category state) or
`^description_skip$` (in the description state) go to their handlers; any
other event is unroutable and leaves the state unchanged. -/
def txStep (store : Store) (telegramId : Nat) (now : DateTime)
    (st : TxState) (d : TxData) (ev : ChatEvent) :
    TxState × TxData × Store × Outcome :=
  match st with
  | .waitingAmount =>
      match ev with
      | .callback data =>
          if data = "transaction_cancel" then
            let (st2, d2, o) := cancel_handler
            (st2, d2, store, o)
          else (st, d, store, .prompt)
      | .text s =>
          let (st2, d2) := amount_handler d s
          (st2, d2, store, .prompt)
  | .waitingCategory =>
      match ev with
      | .callback data =>
          if data = "transaction_cancel" then
            let (st2, d2, o) := cancel_handler
            (st2, d2, store, o)
          else if hasTag "category_".data data.data then
            let (st2, d2) := category_handler d ev
            (st2, d2, store, .prompt)
          else (st, d, store, .prompt)
      | .text _ =>
          let (st2, d2) := category_handler d ev
          (st2, d2, store, .prompt)
  | .waitingDescription =>
      match ev with
      | .callback data =>
          if data = "transaction_cancel" then
            let (st2, d2, o) := cancel_handler
            (st2, d2, store, o)
          else if data = "description_skip" then
            commitTransaction store telegramId d none now
          else (st, d, store, .prompt)
      | .text s => description_handler store telegramId d s now
  | .done => (st, d, store, .prompt)

/-- States of the budget-capture conversation (budgets.py line 23:
`BUDGET_NAME, BUDGET_AMOUNT, BUDGET_CATEGORY, BUDGET_PERIOD = range(4)`),
plus the `ConversationHandler.END` terminal. -/
inductive BState where
  | budgetName
  | budgetAmount
  | budgetCategory
  | budgetPeriod
  | done
deriving DecidableEq

/-- The `context.user_data` fields collected by the budget flow; the
`waiting_for_custom_category` flag defaults to false (a missing dict key
read with `.get`). -/
structure BData where
  budget_name : Option String
  budget_amount : Option ℚ
  budget_category : Option String
  waiting_for_custom_category : Bool
deriving DecidableEq

/-- The cleared `context.user_data` of the budget flow. -/
def BData.empty : BData := ⟨none, none, none, false⟩

/-- Embeds `start_budget_creation` (budgets.py lines 92-112): prompt for the
name; no field is written. -/
def start_budget_creation (d : BData) : BState × BData :=
  (.budgetName, d)

/-- Embeds `budget_name_handler` (budgets.py lines 115-164): strip the text;
re-prompt if shorter than 2 or longer than 100 characters, else store the
name and await the amount. -/
def budget_name_handler (d : BData) (s : String) : BState × BData :=
  let budgetName := pyStrip s
  if budgetName.length < 2 then (.budgetName, d)
  else if budgetName.length > 100 then (.budgetName, d)
  else (.budgetAmount, { d with budget_name := some budgetName })

/-- Embeds `budget_amount_handler` (budgets.py lines 167-252): normalize and
parse; on a parse error, a value `<= 0` or a value above
`Decimal('999999999.99')`, re-prompt in the same state. On success the
amount is stored, then the user row is fetched — ending the conversation
with a failure message if it is missing or if the user has no active expense
categories — else the category step follows. -/
def budget_amount_handler (store : Store) (telegramId : Nat) (d : BData)
    (s : String) : BState × BData × Outcome :=
  match parseDecimal (budgetNormalizeAmount s) with
  | none => (.budgetAmount, d, .prompt)
  | some amount =>
      if amount ≤ 0 then (.budgetAmount, d, .prompt)
      else if maxAmount < amount then (.budgetAmount, d, .prompt)
      else
        let d2 := { d with budget_amount := some amount }
        match getUserByTelegramId store telegramId with
        | none => (.done, d2, .failed)
        | some user =>
            let expenseCategories := (getUserCategories store user.id none).filter
              (fun c => decide (c.transaction_type = Kind.expense))
            if expenseCategories.isEmpty then (.done, d2, .failed)
            else (.budgetCategory, d2, .prompt)

/-- Embeds `budget_category_handler` (budgets.py lines 255-337). The handler
begins with `query = update.callback_query; await query.answer()`: when the
event is a text message, `update.callback_query` is `None` and the attribute
access raises `AttributeError`, so the intended custom-category branch
(lines 299-337, which reads `update.message.text`) is unreachable and the
machine stays in the category step with its data unchanged. A callback
`budget_cat_other` re-prompts in the same state with the
`waiting_for_custom_category` flag set; a callback `budget_cat_<name>`
stores the name and awaits the period. -/
def budget_category_handler (d : BData) (ev : ChatEvent) :
    BState × BData × Outcome :=
  match ev with
  | .text _ => (.budgetCategory, d, .raised)
  | .callback data =>
      if hasTag "budget_cat_".data data.data then
        let categoryName : String := ⟨stripBudgetCatTag data.data⟩
        if categoryName = "other" then
          (.budgetCategory, { d with waiting_for_custom_category := true }, .prompt)
        else (.budgetPeriod, { d with budget_category := some categoryName }, .prompt)
      else if d.waiting_for_custom_category then
        (.budgetCategory, d, .raised)
      else (.budgetCategory, d, .prompt)

/-- Leap-year rule of the proleptic Gregorian calendar used by Python
`datetime`. -/
def isLeap (y : Nat) : Bool := y % 4 = 0 && (y % 100 ≠ 0 || y % 400 = 0)

/-- Number of days in a month of the Gregorian calendar. -/
def daysInMonth (y m : Nat) : Nat :=
  match m with
  | 2 => if isLeap y then 29 else 28
  | 4 => 30
  | 6 => 30
  | 9 => 30
  | 11 => 30
  | _ => 31

/-- Model of `dt - timedelta(days=1)` on a Python datetime: the time of day
is unchanged; day 1 of January rolls back to December 31 of the previous
year, day 1 of any other month to the last day of the preceding month. -/
def subOneDay (t : DateTime) : DateTime :=
  if 1 < t.day then { t with day := t.day - 1 }
  else if t.month = 1 then { t with year := t.year - 1, month := 12, day := 31 }
  else { t with month := t.month - 1, day := daysInMonth t.year (t.month - 1) }

/-- The current-month period of `budget_period_handler` (budgets.py lines
347-354): start is `now` with day 1 and time 00:00:00; the end is the first
day of the next month (rolling December into January of the next year)
minus one day, at 23:59:59. -/
def currentMonthWindow (now : DateTime) : DateTime × DateTime :=
  let startDate : DateTime := { now with day := 1, hour := 0, minute := 0, second := 0 }
  let e0 :=
    if now.month = 12 then { startDate with year := now.year + 1, month := 1 }
    else { startDate with month := now.month + 1 }
  let e1 := subOneDay e0
  (startDate, { e1 with hour := 23, minute := 59, second := 59 })

/-- The next-month period of `budget_period_handler` (budgets.py lines
356-367): for December, January 1 of the next year through February 1 of
the next year minus one day; otherwise the first of the next month through
the first of the month after (January 1 of the next year when the current
month is November) minus one day; the end time is set to 23:59:59. -/
def nextMonthWindow (now : DateTime) : DateTime × DateTime :=
  if now.month = 12 then
    let startDate : DateTime := ⟨now.year + 1, 1, 1, 0, 0, 0⟩
    let e1 := subOneDay ⟨now.year + 1, 2, 1, 0, 0, 0⟩
    (startDate, { e1 with hour := 23, minute := 59, second := 59 })
  else
    let startDate : DateTime := ⟨now.year, now.month + 1, 1, 0, 0, 0⟩
    let e0 : DateTime :=
      if now.month = 11 then ⟨now.year + 1, 1, 1, 0, 0, 0⟩
      else ⟨now.year, now.month + 2, 1, 0, 0, 0⟩
    let e1 := subOneDay e0
    (startDate, { e1 with hour := 23, minute := 59, second := 59 })

/-- The commit at the end of `budget_period_handler` (budgets.py lines
386-422): read the collected fields — a missing key raises `KeyError`,
caught by the surrounding `except Exception`, which reports a failure — call
`BudgetService.create_budget`, then clear `user_data` and end in every case. -/
def commitBudget (store : Store) (telegramId : Nat) (d : BData)
    (window : DateTime × DateTime) : BState × BData × Store × Outcome :=
  match d.budget_name, d.budget_amount, d.budget_category with
  | some budgetName, some amount, some categoryName =>
      let store2 := (createBudgetService store telegramId budgetName amount
        categoryName window.1 window.2).2
      (.done, BData.empty, store2, .committed)
  | _, _, _ => (.done, BData.empty, store, .failed)

/-- Embeds `budget_period_handler` (budgets.py lines 340-422): the
current-month and next-month presets compute their windows from the wall
clock and commit; the custom-period preset only reports that custom periods
are not supported and re-prompts in the period step; an unknown callback
also re-prompts. -/
def budget_period_handler (store : Store) (telegramId : Nat) (now : DateTime)
    (d : BData) (data : String) : BState × BData × Store × Outcome :=
  if data = "period_current_month" then
    commitBudget store telegramId d (currentMonthWindow now)
  else if data = "period_next_month" then
    commitBudget store telegramId d (nextMonthWindow now)
  else if data = "period_custom" then
    (.budgetPeriod, d, store, .prompt)
  else (.budgetPeriod, d, store, .prompt)

/-- Embeds `cancel_budget_creation` (budgets.py lines 425-434): report the
cancellation, clear `user_data`, end the conversation. -/
def cancel_budget_creation : BState × BData × Outcome :=
  (.done, BData.empty, .cancelled)

/-- One turn of the budget-capture conversation, as routed by its
`ConversationHandler` registration (budgets.py lines 447-480): in each state
the `budget_cancel` callback is handled first; the name and amount states
route text to their handlers; the category state routes both callbacks
matching `^budget_cat_` and text messages to `budget_category_handler`; the
period state routes only callbacks matching `^period_`; anything else is
unroutable and leaves the state unchanged. -/
def bStep (store : Store) (telegramId : Nat) (now : DateTime)
    (st : BState) (d : BData) (ev : ChatEvent) :
    BState × BData × Store × Outcome :=
  match st with
  | .budgetName =>
      match ev with
      | .callback data =>
          if data = "budget_cancel" then
            let (st2, d2, o) := cancel_budget_creation
            (st2, d2, store, o)
          else (st, d, store, .prompt)
      | .text s =>
          let (st2, d2) := budget_name_handler d s
          (st2, d2, store, .prompt)
  | .budgetAmount =>
      match ev with
      | .callback data =>
          if data = "budget_cancel" then
            let (st2, d2, o) := cancel_budget_creation
            (st2, d2, store, o)
          else (st, d, store, .prompt)
      | .text s =>
          let (st2, d2, o) := budget_amount_handler store telegramId d s
          (st2, d2, store, o)
  | .budgetCategory =>
      match ev with
      | .callback data =>
          if data = "budget_cancel" then
            let (st2, d2, o) := cancel_budget_creation
            (st2, d2, store, o)
          else if hasTag "budget_cat_".data data.data then
            let (st2, d2, o) := budget_category_handler d ev
            (st2, d2, store, o)
          else (st, d, store, .prompt)
      | .text _ =>
          let (st2, d2, o) := budget_category_handler d ev
          (st2, d2, store, o)
  | .budgetPeriod =>
      match ev with
      | .callback data =>
          if data = "budget_cancel" then
            let (st2, d2, o) := cancel_budget_creation
            (st2, d2, store, o)
          else if hasTag "period_".data data.data then
            budget_period_handler store telegramId now d data
          else (st, d, store, .prompt)
      | .text _ => (st, d, store, .prompt)
  | .done => (st, d, store, .prompt)

/-
Spec-side definitions. Each follows the wording of the specification or of a
claim, for comparison against the embedded source definitions.
-/

/-- Spec-side budget spending: the sum of the user's expense-kind
transactions in the budget's category with transaction date in
[budget.start, budget.end], inclusive at both ends. -/
def specBudgetSpent (store : Store) (userId : Nat) (b : BudgetRow) : ℚ :=
  ((store.transactions.filter (fun t =>
    decide (t.user_id = userId ∧ t.transaction_type = Kind.expense ∧
      t.category_id = b.category_id ∧
      dtLe b.start_date t.transaction_date ∧
      dtLe t.transaction_date b.end_date))).map (fun t => t.amount)).sum

/-- Classification of a budget-alert decision, for comparison with the
spec's three-way rule. -/
inductive AlertKind where
  | quiet
  | near
  | exceededAlert
deriving DecidableEq

/-- The kind of an emitted alert option. -/
def alertKind : Option BudgetAlert → AlertKind
  | none => .quiet
  | some (.exceeded _ _ _) => .exceededAlert
  | some (.nearLimit _ _ _) => .near

/-- Spec-side alert rule, following the claim's words: an exceeded alert if
spent > limit; otherwise a near-limit alert if spent/limit ≥ 0.80, where the
percentage computation is short-circuited to 0 when the limit is 0;
otherwise no alert. -/
def specAlertKind (spent limit : ℚ) : AlertKind :=
  if limit < spent then .exceededAlert
  else if (4 : ℚ) / 5 ≤ (if limit = 0 then 0 else spent / limit) then .near
  else .quiet

/-- Spec-side first instant of a month. -/
def specMonthStart (year month : Nat) : DateTime := ⟨year, month, 1, 0, 0, 0⟩

/-- Spec-side year/month of the month after the given one, with
December-to-January rollover. -/
def specNextYM (year month : Nat) : Nat × Nat :=
  if month = 12 then (year + 1, 1) else (year, month + 1)

/-- Spec-side first instant of the month after the given one. -/
def specNextMonthStart (year month : Nat) : DateTime :=
  specMonthStart (specNextYM year month).1 (specNextYM year month).2

/-- Spec-side monthly total: the sum of the user's transactions of the given
kind with dates in the end-exclusive window
[first instant of the month, first instant of the next month). -/
def specMonthlyTotal (store : Store) (userId : Nat) (k : Kind)
    (year month : Nat) : ℚ :=
  ((store.transactions.filter (fun t =>
    decide (t.user_id = userId ∧ t.transaction_type = k ∧
      dtLe (specMonthStart year month) t.transaction_date ∧
      dtLt t.transaction_date (specNextMonthStart year month)))).map
    (fun t => t.amount)).sum

/-- Per-category expense total over the end-INCLUSIVE window
[first instant of the month, first instant of the next month]; this is the
window the top-categories aggregation of the monthly summary actually uses. -/
def specCategoryTotalInclusive (store : Store) (userId : Nat)
    (c : CategoryRow) (year month : Nat) : ℚ :=
  ((store.transactions.filter (fun t =>
    decide (t.user_id = userId ∧ t.transaction_type = Kind.expense ∧
      t.category_id = c.id ∧
      dtLe (specMonthStart year month) t.transaction_date ∧
      dtLe t.transaction_date (specNextMonthStart year month)))).map
    (fun t => t.amount)).sum

/-- Spec-side budget period for a month: the first day at 00:00:00 through
the last day of that month at 23:59:59. -/
def specBudgetWindow (year month : Nat) : DateTime × DateTime :=
  (⟨year, month, 1, 0, 0, 0⟩, ⟨year, month, daysInMonth year month, 23, 59, 59⟩)

/-
Concrete fixtures used by witnesses and counterexamples.
-/

/-- A store with no rows. -/
def emptyStore : Store := ⟨[], [], [], [], 1, 1, 1, 1⟩

/-- Fixture: one user, one expense category, one budget with limit 10000
over January 2024, and two expense transactions totalling 3000 inside the
budget window. -/
def demoStore : Store :=
  { users := [⟨1, 100, some "anna", none, true⟩]
    categories := [⟨1, "Продукты", none, 1, Kind.expense, true⟩]
    transactions :=
      [⟨1, 2000, none, Kind.expense, 1, 1, ⟨2024, 1, 5, 12, 0, 0⟩⟩,
       ⟨2, 1000, none, Kind.expense, 1, 1, ⟨2024, 1, 10, 9, 30, 0⟩⟩]
    budgets := [⟨1, "Январь", 10000, 0, 1, 1, ⟨2024, 1, 1, 0, 0, 0⟩,
      ⟨2024, 1, 31, 23, 59, 59⟩, true⟩]
    nextUserId := 2, nextCategoryId := 2, nextTransactionId := 3,
    nextBudgetId := 2 }

/-- The moment at which the demo store is queried. -/
def demoNow : DateTime := ⟨2024, 1, 15, 12, 0, 0⟩

/-- The entry `get_active_budgets_with_spending` returns on `demoStore`. -/
def demoEntry : BudgetEntry :=
  ⟨⟨1, "Январь", 10000, 0, 1, 1, ⟨2024, 1, 1, 0, 0, 0⟩,
    ⟨2024, 1, 31, 23, 59, 59⟩, true⟩, "Продукты", 3000, 7000, false⟩

/-- Fixture: like `demoStore` but with expenses totalling 10500, exceeding
the 10000 limit. -/
def demoStoreOver : Store :=
  { demoStore with transactions :=
      [⟨1, 10000, none, Kind.expense, 1, 1, ⟨2024, 1, 5, 12, 0, 0⟩⟩,
       ⟨2, 500, none, Kind.expense, 1, 1, ⟨2024, 1, 10, 9, 30, 0⟩⟩] }

/-- The entry `get_active_budgets_with_spending` returns on
`demoStoreOver`: exceeded, with negative remaining amount. -/
def demoEntryOver : BudgetEntry :=
  ⟨⟨1, "Январь", 10000, 0, 1, 1, ⟨2024, 1, 1, 0, 0, 0⟩,
    ⟨2024, 1, 31, 23, 59, 59⟩, true⟩, "Продукты", 10500, -500, true⟩

/-- Fixture for the monthly-summary boundary: a single expense of 500 at
exactly the first instant of February 2024. -/
def demoStoreFeb : Store :=
  { users := [⟨1, 100, none, none, true⟩]
    categories := [⟨1, "Еда", none, 1, Kind.expense, true⟩]
    transactions := [⟨1, 500, none, Kind.expense, 1, 1, ⟨2024, 2, 1, 0, 0, 0⟩⟩]
    budgets := []
    nextUserId := 2, nextCategoryId := 2, nextTransactionId := 2,
    nextBudgetId := 1 }

/-- Fixture for inactive-category resolution: the user's only category named
"Еда" is soft-disabled. -/
def demoStoreInactive : Store :=
  { users := [⟨1, 100, none, none, true⟩]
    categories := [⟨1, "Еда", none, 1, Kind.expense, false⟩]
    transactions := []
    budgets := []
    nextUserId := 2, nextCategoryId := 2, nextTransactionId := 1,
    nextBudgetId := 1 }

/-- Concrete budget entries at the claim's threshold ratios 0.79, 0.80,
1.01, and at a zero limit. -/
def entryAt (spent limit : ℚ) : BudgetEntry :=
  ⟨⟨1, "Бюджет", limit, 0, 1, 1, ⟨2024, 1, 1, 0, 0, 0⟩,
    ⟨2024, 1, 31, 23, 59, 59⟩, true⟩, "Кафе", spent, qsub limit spent,
    decide (limit < spent)⟩

/-
Bridge lemmas: the executable rational operations agree with the standard
ones.
-/

/-- Helper: `mkRat` over a natural denominator as `divInt`. -/
theorem mkRat_as_divInt (n : Int) (d : Nat) : mkRat n d = Rat.divInt n (d : Int) :=
  Rat.mkRat_eq_divInt n d

/-- The executable addition is addition. -/
theorem qadd_eq (a b : ℚ) : qadd a b = a + b := by
  have ha : ((a.den : ℚ)) ≠ 0 := by exact_mod_cast a.den_nz
  have hb : ((b.den : ℚ)) ≠ 0 := by exact_mod_cast b.den_nz
  rw [qadd, mkRat_as_divInt, Rat.divInt_eq_div]
  conv_rhs => rw [← Rat.num_div_den a, ← Rat.num_div_den b]
  rw [div_add_div _ _ ha hb]
  push_cast
  congr 1
  ring

/-- The executable subtraction is subtraction. -/
theorem qsub_eq (a b : ℚ) : qsub a b = a - b := by
  have ha : ((a.den : ℚ)) ≠ 0 := by exact_mod_cast a.den_nz
  have hb : ((b.den : ℚ)) ≠ 0 := by exact_mod_cast b.den_nz
  rw [qsub, mkRat_as_divInt, Rat.divInt_eq_div]
  conv_rhs => rw [← Rat.num_div_den a, ← Rat.num_div_den b]
  rw [div_sub_div _ _ ha hb]
  push_cast
  congr 1
  ring

/-- The executable multiplication is multiplication. -/
theorem qmul_eq (a b : ℚ) : qmul a b = a * b := by
  rw [qmul, mkRat_as_divInt, Rat.divInt_eq_div]
  conv_rhs => rw [← Rat.num_div_den a, ← Rat.num_div_den b]
  rw [div_mul_div_comm]
  push_cast
  rfl

/-- The executable inverse is the inverse. -/
theorem qinv_eq (a : ℚ) : qinv a = a⁻¹ := by
  rw [qinv]
  rcases lt_trichotomy a.num 0 with h | h | h
  · rw [if_pos h, mkRat_as_divInt, Rat.inv_def']
    have hcast : ((a.num.natAbs : ℤ)) = -a.num := by omega
    rw [hcast]
    rw [Rat.divInt_neg (-(a.den : ℤ)) a.num, neg_neg]
  · rw [if_neg (by omega), if_neg (by omega)]
    have : a = 0 := Rat.num_eq_zero.mp h
    rw [this, inv_zero]
  · rw [if_neg (by omega), if_pos h, mkRat_as_divInt, Rat.inv_def']
    rw [Int.natAbs_of_nonneg (le_of_lt h)]

/-- The executable division is division. -/
theorem qdiv_eq (a b : ℚ) : qdiv a b = a / b := by
  rw [qdiv, qmul_eq, qinv_eq, div_eq_mul_inv]

/-- The executable sum is the list sum. -/
theorem qsum_eq (l : List ℚ) : qsum l = l.sum := by
  induction l with
  | nil => rfl
  | cons x xs ih =>
      rw [qsum, List.foldr_cons, List.sum_cons, qadd_eq]
      exact congrArg (fun y => x + y) ih

/-
Helper lemmas about normalization.
-/

/-- The comma-to-period character map never turns a character into
whitespace or out of whitespace. -/
theorem isPySpace_commaMap (c : Char) :
    isPySpace (if c = ',' then '.' else c) = isPySpace c := by
  by_cases hc : c = ','
  · subst hc
    decide
  · rw [if_neg hc]

/-- Dropping a prefix by a predicate commutes with a predicate-preserving
character map. -/
theorem dropWhile_map_comm (f : Char → Char) (p : Char → Bool)
    (h : ∀ c, p (f c) = p c) (cs : List Char) :
    List.dropWhile p (cs.map f) = (List.dropWhile p cs).map f := by
  induction cs with
  | nil => rfl
  | cons c cs ih =>
      by_cases hp : p c
      · simp [List.dropWhile, h, hp, ih]
      · simp [List.dropWhile, h, hp]

/-- Trimming commutes with the comma-to-period map, so the transaction
flow's replace-then-strip and the budget flow's strip-then-replace
normalize every amount string identically. -/
theorem normalize_comm (s : String) :
    budgetNormalizeAmount s = txNormalizeAmount s := by
  rw [budgetNormalizeAmount, txNormalizeAmount, replaceCommaWithDot,
    replaceCommaWithDot, trimChars, trimChars]
  congr 1
  rw [dropWhile_map_comm _ _ isPySpace_commaMap, ← List.map_reverse,
    dropWhile_map_comm _ _ isPySpace_commaMap, ← List.map_reverse]

/-- Claim C1 (amended): both flows normalize an amount string identically
(comma to period, trimmed); the budget flow accepts exactly the strings
that parse to a value strictly greater than 0 and at most 999,999,999.99
(the spec-side rule), while the transaction flow checks no upper bound and
accepts exactly the strings that parse to any value strictly greater
than 0. -/
theorem amount_validation_amended (s : String) :
    budgetNormalizeAmount s = txNormalizeAmount s ∧
    budgetAmountValid s = specAmountAccepts s ∧
    (txAmountValid s = true ↔
      ∃ q, parseDecimal (txNormalizeAmount s) = some q ∧ 0 < q) := by
  refine ⟨normalize_comm s, ?_, ?_⟩
  · rw [budgetAmountValid, specAmountAccepts, normalize_comm s]
    rfl
  · rw [txAmountValid]
    cases hparse : parseDecimal (txNormalizeAmount s) with
    | none => simp
    | some q => simp [decide_eq_true_iff]

/-- Claim C1 counterexample: the transaction-flow amount handler accepts
`"1000000000.00"` (value 10^9, above the 999,999,999.99 bound the claim says
is enforced in both flows) and advances to the category step with the
oversized amount stored; the budget flow and the spec-side rule reject the
same string. -/
theorem tx_amount_upper_bound_missing :
    txAmountValid "1000000000.00" = true ∧
    specAmountAccepts "1000000000.00" = false ∧
    budgetAmountValid "1000000000.00" = false ∧
    amount_handler ⟨some Kind.expense, none, none⟩ "1000000000.00" =
      (TxState.waitingCategory, ⟨some Kind.expense, some (mkRat 1000000000 1), none⟩) := by
  refine ⟨by decide, by decide, by decide, by decide⟩

/-- Witness for the amended claim C1 at the claim's own sample inputs. -/
theorem amount_validation_amended_witness :
    budgetAmountValid "1,50" = specAmountAccepts "1,50" ∧
    txAmountValid "15000" = true :=
  ⟨(amount_validation_amended "1,50").2.1,
    (amount_validation_amended "15000").2.2.mpr
      ⟨mkRat 15000 1, by decide, by decide⟩⟩

/-- Claim C3: in the transaction flow the sentinel works as specified — the
`category_other` callback does not advance the machine, and the next free
text is stored as the new category name, advancing to the description step
exactly as a chosen pre-existing category would. In the budget flow the
sentinel callback does set the `waiting_for_custom_category` flag without
advancing, but the next free text makes `budget_category_handler` raise
`AttributeError` (it calls `update.callback_query.answer()` on a `None`
callback query), so the machine stays at the category step with no category
recorded and the intended custom-category branch is unreachable. -/
theorem other_sentinel_budget_crash :
    (∀ d, category_handler d (.callback "category_other") = (TxState.waitingCategory, d)) ∧
    (∀ d s, category_handler d (.text s) =
      (TxState.waitingDescription, { d with categoryName := some (pyStrip s) })) ∧
    (∀ d, budget_category_handler d (.callback "budget_cat_other") =
      (BState.budgetCategory, { d with waiting_for_custom_category := true }, Outcome.prompt)) ∧
    (∀ d s, budget_category_handler d (.text s) =
      (BState.budgetCategory, d, Outcome.raised)) ∧
    (∀ store telegramId now d s,
      bStep store telegramId now BState.budgetCategory d (.text s) =
        (BState.budgetCategory, d, store, Outcome.raised)) := by
  refine ⟨fun d => rfl, fun d s => rfl, fun d => rfl, fun d s => rfl,
    fun store telegramId now d s => rfl⟩

/-- Claim C7 counterexample: the transaction flow accepts the one-character
category name `"x"` (trimmed length 1, outside the claimed [2,100] bound)
and advances to the description step with it stored. -/
theorem tx_category_length_unchecked :
    (pyStrip "x").length = 1 ∧
    category_handler ⟨some Kind.expense, some (mkRat 100 1), none⟩ (.text "x") =
      (TxState.waitingDescription,
        ⟨some Kind.expense, some (mkRat 100 1), some "x"⟩) := by
  exact ⟨by decide, by decide⟩

/-- Claim C7 (amended): only the budget-name step enforces the [2,100]
length bound on the trimmed input — accepting exactly the in-bounds names,
and leaving the machine in the same step with unchanged data otherwise — 
while the transaction flow's freeform category text is always accepted,
whatever its length. (The budget flow's custom-category branch, which
checks only the 2-character minimum, is unreachable; see the claim C3
theorem.) -/
theorem name_length_validation_amended (d : BData) (dtx : TxData) (s : String) :
    ((budget_name_handler d s).1 = BState.budgetAmount ↔
      2 ≤ (pyStrip s).length ∧ (pyStrip s).length ≤ 100) ∧
    (¬(2 ≤ (pyStrip s).length ∧ (pyStrip s).length ≤ 100) →
      budget_name_handler d s = (BState.budgetName, d)) ∧
    ((budget_name_handler d s).1 = BState.budgetAmount →
      (budget_name_handler d s).2.budget_name = some (pyStrip s)) ∧
    (category_handler dtx (.text s) =
      (TxState.waitingDescription, { dtx with categoryName := some (pyStrip s) })) := by
  refine ⟨?_, ?_, ?_, rfl⟩
  · rw [budget_name_handler]
    by_cases hlo : (pyStrip s).length < 2
    · rw [if_pos hlo]
      simp
      omega
    · rw [if_neg hlo]
      by_cases hhi : (pyStrip s).length > 100
      · rw [if_pos hhi]
        simp
        omega
      · rw [if_neg hhi]
        simp
        omega
  · intro hout
    rw [budget_name_handler]
    by_cases hlo : (pyStrip s).length < 2
    · rw [if_pos hlo]
    · rw [if_neg hlo]
      rw [if_pos (by omega)]
  · intro hok
    rw [budget_name_handler] at hok ⊢
    by_cases hlo : (pyStrip s).length < 2
    · rw [if_pos hlo] at hok
      exact absurd hok (by simp)
    · rw [if_neg hlo] at hok ⊢
      by_cases hhi : (pyStrip s).length > 100
      · rw [if_pos hhi] at hok
        exact absurd hok (by simp)
      · rw [if_neg hhi]

/-- Witness for the amended claim C7: the two-character budget name `"Ок"`
is accepted, and the transaction flow accepts free text at the category
step. -/
theorem name_length_validation_witness :
    (budget_name_handler BData.empty "Ок").1 = BState.budgetAmount ∧
    category_handler TxData.empty (.text "Еда") =
      (TxState.waitingDescription, { TxData.empty with categoryName := some "Еда" }) :=
  ⟨(name_length_validation_amended BData.empty TxData.empty "Ок").1.mpr (by decide),
    (name_length_validation_amended BData.empty TxData.empty "Еда").2.2.2⟩

/-- Claim C9: in both flows the cancel callback is accepted in every
non-terminal state, moves to the terminal state with the `cancelled`
outcome — a different constructor from `committed` — clears all collected
fields, and a fresh entry after that starts from the cleared data (the
transaction entries set only the transaction type; the budget entry sets
nothing). -/
theorem cancel_resets_flows :
    (∀ store telegramId now st d, st ≠ TxState.done →
      txStep store telegramId now st d (.callback "transaction_cancel") =
        (TxState.done, TxData.empty, store, Outcome.cancelled)) ∧
    (∀ store telegramId now st d, st ≠ BState.done →
      bStep store telegramId now st d (.callback "budget_cancel") =
        (BState.done, BData.empty, store, Outcome.cancelled)) ∧
    Outcome.cancelled ≠ Outcome.committed ∧
    add_income_handler TxData.empty =
      (TxState.waitingAmount, ⟨some Kind.income, none, none⟩) ∧
    add_expense_handler TxData.empty =
      (TxState.waitingAmount, ⟨some Kind.expense, none, none⟩) ∧
    start_budget_creation BData.empty = (BState.budgetName, BData.empty) := by
  refine ⟨?_, ?_, by decide, rfl, rfl, rfl⟩
  · intro store telegramId now st d hst
    cases st with
    | done => exact absurd rfl hst
    | waitingAmount => rfl
    | waitingCategory => rfl
    | waitingDescription => rfl
  · intro store telegramId now st d hst
    cases st with
    | done => exact absurd rfl hst
    | budgetName => rfl
    | budgetAmount => rfl
    | budgetCategory => rfl
    | budgetPeriod => rfl

/-- Witness for claim C9: cancelling mid-flow at the category step of each
flow with concrete collected data. -/
theorem cancel_resets_flows_witness :
    txStep demoStore 100 demoNow TxState.waitingCategory
      ⟨some Kind.expense, some (mkRat 100 1), none⟩ (.callback "transaction_cancel") =
      (TxState.done, TxData.empty, demoStore, Outcome.cancelled) ∧
    bStep demoStore 100 demoNow BState.budgetCategory
      ⟨some "Имя", some (mkRat 500 1), none, true⟩ (.callback "budget_cancel") =
      (BState.done, BData.empty, demoStore, Outcome.cancelled) :=
  ⟨cancel_resets_flows.1 demoStore 100 demoNow TxState.waitingCategory
      ⟨some Kind.expense, some (mkRat 100 1), none⟩ (by decide),
    cancel_resets_flows.2.1 demoStore 100 demoNow BState.budgetCategory
      ⟨some "Имя", some (mkRat 500 1), none, true⟩ (by decide)⟩

/-- One day before the first of the month after month `m` (of the same
year, for `m ≤ 11`) is the last day of month `m`. -/
theorem subOneDay_next_month_first (y m hh mi ss : Nat) (h1 : 1 ≤ m)
    (h2 : m ≤ 11) :
    subOneDay ⟨y, m + 1, 1, hh, mi, ss⟩ = ⟨y, m, daysInMonth y m, hh, mi, ss⟩ := by
  rw [subOneDay]
  rw [if_neg (by simp), if_neg (by simp; omega)]
  simp

/-- One day before January 1 is December 31 of the previous year. -/
theorem subOneDay_jan_first (y hh mi ss : Nat) :
    subOneDay ⟨y + 1, 1, 1, hh, mi, ss⟩ = ⟨y, 12, 31, hh, mi, ss⟩ := by
  rw [subOneDay]
  rw [if_neg (by simp), if_pos rfl]
  simp

/-- Claim C8: at any wall-clock date with a calendar month, the
current-month preset computes exactly the window from the first day of the
current month at 00:00:00 through its last day at 23:59:59; the next-month
preset computes the same window for the following month, rolling December
over into January of the next year; and the custom-period preset never
commits a budget — the handler leaves the store untouched and the machine
stays in the period step. -/
theorem budget_period_presets_correct (now : DateTime) (h1 : 1 ≤ now.month)
    (h2 : now.month ≤ 12) :
    currentMonthWindow now = specBudgetWindow now.year now.month ∧
    nextMonthWindow now =
      specBudgetWindow (specNextYM now.year now.month).1
        (specNextYM now.year now.month).2 ∧
    (∀ store telegramId d, budget_period_handler store telegramId now d
      "period_custom" = (BState.budgetPeriod, d, store, Outcome.prompt)) ∧
    (∀ store telegramId d, bStep store telegramId now BState.budgetPeriod d
      (.callback "period_custom") = (BState.budgetPeriod, d, store, Outcome.prompt)) := by
  obtain ⟨y, m, dd, hh, mi, ss⟩ := now
  simp only at h1 h2
  refine ⟨?_, ?_, fun store telegramId d => rfl, fun store telegramId d => rfl⟩
  · by_cases hm : m = 12
    · subst hm
      simp [currentMonthWindow, subOneDay_jan_first, specBudgetWindow]
      rfl
    · have hm11 : m ≤ 11 := by omega
      simp only [currentMonthWindow, if_neg hm]
      rw [subOneDay_next_month_first y m 0 0 0 h1 hm11]
      rfl
  · by_cases hm : m = 12
    · subst hm
      simp [nextMonthWindow, specNextYM,
        subOneDay_next_month_first (y + 1) 1 0 0 0 (by omega) (by omega)]
      rfl
    · by_cases hm11 : m = 11
      · subst hm11
        simp [nextMonthWindow, specNextYM, subOneDay_jan_first]
        rfl
      · simp only [nextMonthWindow, specNextYM, if_neg hm, if_neg hm11]
        rw [show m + 2 = (m + 1) + 1 from rfl]
        rw [subOneDay_next_month_first y (m + 1) 0 0 0 (by omega) (by omega)]
        rfl

/-- Witness for claim C8 at a concrete December date (exercising the
year rollover) and at a concrete February date of a leap year. -/
theorem budget_period_presets_witness :
    currentMonthWindow ⟨2024, 12, 15, 10, 30, 0⟩ = specBudgetWindow 2024 12 ∧
    nextMonthWindow ⟨2024, 12, 15, 10, 30, 0⟩ = specBudgetWindow 2025 1 ∧
    currentMonthWindow ⟨2024, 2, 10, 8, 0, 0⟩ = specBudgetWindow 2024 2 ∧
    budget_period_handler demoStore 100 ⟨2024, 12, 15, 10, 30, 0⟩ BData.empty
      "period_custom" = (BState.budgetPeriod, BData.empty, demoStore, Outcome.prompt) :=
  ⟨(budget_period_presets_correct ⟨2024, 12, 15, 10, 30, 0⟩ (by decide) (by decide)).1,
    (budget_period_presets_correct ⟨2024, 12, 15, 10, 30, 0⟩ (by decide) (by decide)).2.1,
    (budget_period_presets_correct ⟨2024, 2, 10, 8, 0, 0⟩ (by decide) (by decide)).1,
    (budget_period_presets_correct ⟨2024, 12, 15, 10, 30, 0⟩ (by decide) (by decide)).2.2.1
      demoStore 100 BData.empty⟩

/-- A user lookup that succeeds makes `resolveUser` a pure read. -/
theorem resolveUser_of_found {store : Store} {telegramId : Nat} {u : UserRow}
    (h : getUserByTelegramId store telegramId = some u) :
    resolveUser store telegramId = (u, store) := by
  rw [resolveUser, h]

/-- After `resolveUser`, a user with the requested telegram id exists. -/
theorem resolveUser_finds (store : Store) (telegramId : Nat) :
    ∃ u, getUserByTelegramId (resolveUser store telegramId).2 telegramId = some u := by
  cases hfind : getUserByTelegramId store telegramId with
  | some u =>
      rw [resolveUser_of_found hfind]
      exact ⟨u, hfind⟩
  | none =>
      rw [resolveUser, hfind, createUser]
      rw [getUserByTelegramId] at hfind ⊢
      rw [List.find?_append, hfind, Option.none_or]
      simp [List.find?]

/-- Claim C6: resolution is idempotent. Resolving a user twice changes
nothing the second time; across the two calls the number of user rows with
the resolved telegram id is the maximum of its previous count and one, so a
second row is never created. Resolving a category twice with names equal up
to case changes nothing the second time: the second call finds (by
case-insensitive match among the user's active categories of that kind) the
row the first call found or created. -/
theorem resolution_idempotent :
    (∀ store telegramId,
      (resolveUser (resolveUser store telegramId).2 telegramId).2 =
        (resolveUser store telegramId).2) ∧
    (∀ store telegramId,
      ((resolveUser store telegramId).2.users.countP
          (fun u => decide (u.telegram_id = telegramId))) =
        max (store.users.countP (fun u => decide (u.telegram_id = telegramId))) 1) ∧
    (∀ store userId n n' k, pyLower n' = pyLower n →
      (resolveCategory (resolveCategory store userId n k).2 userId n' k).2 =
        (resolveCategory store userId n k).2) := by
  refine ⟨?_, ?_, ?_⟩
  · intro store telegramId
    obtain ⟨u, hu⟩ := resolveUser_finds store telegramId
    rw [resolveUser_of_found hu]
  · intro store telegramId
    cases hfind : getUserByTelegramId store telegramId with
    | some u =>
        rw [resolveUser_of_found hfind]
        have hfind2 : store.users.find?
            (fun v => decide (v.telegram_id = telegramId)) = some u := hfind
        have hmem : u ∈ store.users := List.mem_of_find?_eq_some hfind2
        have hp := List.find?_some hfind2
        have hpos : 0 < store.users.countP
            (fun v => decide (v.telegram_id = telegramId)) :=
          List.countP_pos_iff.mpr ⟨u, hmem, hp⟩
        show store.users.countP (fun v => decide (v.telegram_id = telegramId)) =
          max (store.users.countP (fun v => decide (v.telegram_id = telegramId))) 1
        omega
    | none =>
        rw [resolveUser, hfind, createUser]
        have hzero : store.users.countP
            (fun v => decide (v.telegram_id = telegramId)) = 0 :=
          List.countP_eq_zero.mpr (by
            intro v hv hpv
            exact absurd (List.find?_eq_none.mp hfind v hv) (by simp [hpv]))
        rw [List.countP_append, hzero]
        simp
  · intro store userId n n' k hlow
    cases hfind : (getUserCategories store userId (some k)).find?
        (fun c => decide (pyLower c.name = pyLower n)) with
    | some cat =>
        have hres : resolveCategory store userId n k = (cat, store) := by
          rw [resolveCategory, hfind]
        rw [hres]
        have hpred : (fun c : CategoryRow => decide (pyLower c.name = pyLower n')) =
            (fun c : CategoryRow => decide (pyLower c.name = pyLower n)) := by
          funext c
          rw [hlow]
        rw [resolveCategory, hpred, hfind]
    | none =>
        have hres : resolveCategory store userId n k = createCategory store n userId k := by
          rw [resolveCategory, hfind]
        rw [hres]
        have hmem : (⟨store.nextCategoryId, n, none, userId, k, true⟩ : CategoryRow) ∈
            getUserCategories (createCategory store n userId k).2 userId (some k) := by
          rw [getUserCategories]
          apply (List.perm_insertionSort _ _).mem_iff.mpr
          apply List.mem_filter.mpr
          refine ⟨?_, by simp⟩
          rw [createCategory]
          simp
        have hsome : ((getUserCategories (createCategory store n userId k).2 userId
            (some k)).find? (fun c => decide (pyLower c.name = pyLower n'))).isSome := by
          apply List.find?_isSome.mpr
          exact ⟨_, hmem, by simp [hlow]⟩
        obtain ⟨cat2, hcat2⟩ := Option.isSome_iff_exists.mp hsome
        rw [resolveCategory, hcat2]

/-- Witness for claim C6: resolving user 42 twice on the empty store, and
resolving the category name `"Food"` then `"FOOD"` for the demo user. -/
theorem resolution_idempotent_witness :
    (resolveUser (resolveUser emptyStore 42).2 42).2 = (resolveUser emptyStore 42).2 ∧
    ((resolveUser emptyStore 42).2.users.countP
        (fun u => decide (u.telegram_id = 42))) = 1 ∧
    (resolveCategory (resolveCategory demoStore 1 "Food" Kind.expense).2 1 "FOOD"
        Kind.expense).2 = (resolveCategory demoStore 1 "Food" Kind.expense).2 := by
  refine ⟨resolution_idempotent.1 emptyStore 42, ?_,
    resolution_idempotent.2.2 demoStore 1 "Food" "FOOD" Kind.expense (by decide)⟩
  rw [resolution_idempotent.2.1 emptyStore 42]
  decide

/-- Claim C10: category resolution only scans active categories. When no
active category of the user and kind matches the requested name
(case-insensitively) — in particular when the only matching rows are
soft-disabled — `resolveCategory` does not revive or reuse any disabled
row: it appends a brand-new active row with the exact requested name,
leaving every existing row (including the disabled one) unchanged. -/
theorem inactive_category_not_revived (store : Store) (userId : Nat)
    (n : String) (k : Kind)
    (hnone : ∀ c ∈ store.categories, c.user_id = userId → c.is_active = true →
      c.transaction_type = k → pyLower c.name ≠ pyLower n) :
    (resolveCategory store userId n k).1 =
      ⟨store.nextCategoryId, n, none, userId, k, true⟩ ∧
    (resolveCategory store userId n k).2.categories =
      store.categories ++ [⟨store.nextCategoryId, n, none, userId, k, true⟩] := by
  have hfind : (getUserCategories store userId (some k)).find?
      (fun c => decide (pyLower c.name = pyLower n)) = none := by
    apply List.find?_eq_none.mpr
    intro c hc
    have hc2 : c ∈ store.categories ∧ _ :=
      List.mem_filter.mp ((List.perm_insertionSort _ _).mem_iff.mp hc)
    obtain ⟨hcmem, hcpred⟩ := hc2
    simp only [Bool.and_eq_true, decide_eq_true_iff] at hcpred
    simp only [decide_eq_true_iff]
    exact hnone c hcmem hcpred.1.1 hcpred.1.2 hcpred.2
  constructor
  · rw [resolveCategory, hfind, createCategory]
  · rw [resolveCategory, hfind, createCategory]

/-- Witness for claim C10: on the fixture whose only `"Еда"` category is
disabled, resolution appends a second, active `"Еда"` row with a fresh id,
so the user ends with two same-named rows differing in the active flag. -/
theorem inactive_category_not_revived_witness :
    (resolveCategory demoStoreInactive 1 "Еда" Kind.expense).2.categories =
      demoStoreInactive.categories ++ [⟨2, "Еда", none, 1, Kind.expense, true⟩] ∧
    ((resolveCategory demoStoreInactive 1 "Еда" Kind.expense).2.categories.countP
        (fun c => decide (c.user_id = 1) && decide (c.name = "Еда"))) = 2 ∧
    ((resolveCategory demoStoreInactive 1 "Еда" Kind.expense).2.categories.countP
        (fun c => decide (c.user_id = 1) && decide (c.name = "Еда") && c.is_active)) = 1 :=
  ⟨(inactive_category_not_revived demoStoreInactive 1 "Еда" Kind.expense (by decide)).2,
    by decide, by decide⟩

/-- Claim C4: every entry produced by the active-budgets query carries
`is_exceeded` equal to `spent > limit`; the percentage computation is
short-circuited to 0 whenever the limit is 0 (so the division is never
evaluated); and on any entry whose `is_exceeded` flag means `spent > limit`
and whose limit is nonnegative, the alert decision matches the spec's
three-way rule — an exceeded alert iff spent > limit, else a near-limit
alert iff spent/limit ≥ 0.80 (with the zero-limit percentage
short-circuited to 0), else no alert. -/
theorem budget_alert_thresholds :
    (∀ store userId now e, e ∈ getActiveBudgetsWithSpending store userId now →
      e.is_exceeded = decide (e.budget.amount < e.spent_amount)) ∧
    (∀ e : BudgetEntry, e.budget.amount = 0 → percentageUsed e = 0) ∧
    (∀ e : BudgetEntry, e.is_exceeded = decide (e.budget.amount < e.spent_amount) →
      0 ≤ e.budget.amount →
      alertKind (alertFor e) = specAlertKind e.spent_amount e.budget.amount) := by
  refine ⟨?_, ?_, ?_⟩
  · intro store userId now e he
    rw [getActiveBudgetsWithSpending] at he
    simp only [List.mem_filterMap] at he
    obtain ⟨b, hb, hmap⟩ := he
    rw [Option.map_eq_some'] at hmap
    obtain ⟨c, hc, hgc⟩ := hmap
    subst hgc
    rfl
  · intro e h
    rw [percentageUsed, h]
    simp
  · intro e hex hpos
    by_cases hlt : e.budget.amount < e.spent_amount
    · rw [alertFor, hex, if_pos (by simp [hlt]), specAlertKind, if_pos hlt]
      rfl
    · rcases lt_or_eq_of_le hpos with hz | hz
      · have hpct : percentageUsed e = e.spent_amount / e.budget.amount * 100 := by
          rw [percentageUsed, if_pos hz, qmul_eq, qdiv_eq]
        have key : ((4:ℚ)/5 ≤ e.spent_amount / e.budget.amount) ↔
            ((80:ℚ) ≤ e.spent_amount / e.budget.amount * 100) := by
          rw [show (4:ℚ)/5 = 80/100 by norm_num]
          exact div_le_iff₀ (by norm_num)
        rw [alertFor, hex, if_neg (by simp [hlt]), hpct, specAlertKind,
          if_neg hlt, if_neg (ne_of_gt hz)]
        by_cases hnear : (4:ℚ)/5 ≤ e.spent_amount / e.budget.amount
        · rw [if_pos (key.mp hnear), if_pos hnear]
          rfl
        · rw [if_neg (fun hc => hnear (key.mpr hc)), if_neg hnear]
          rfl
      · have hz2 : e.budget.amount = 0 := hz.symm
        have hpct : percentageUsed e = 0 := by
          rw [percentageUsed, hz2]
          simp
        rw [alertFor, hex, if_neg (by simp [hlt]), hpct, if_neg (by norm_num),
          specAlertKind, if_neg hlt, if_pos hz2, if_neg (by norm_num)]
        rfl

/-- Witness for claim C4 at the claim's threshold ratios: spent/limit of
0.79 yields no alert, 0.80 the near-limit alert, 1.01 the exceeded alert; a
zero limit with positive spending yields the exceeded alert (and never a
division), a zero limit with zero spending no alert. -/
theorem budget_alert_thresholds_witness :
    alertKind (alertFor (entryAt 79 100)) = specAlertKind 79 100 ∧
    alertKind (alertFor (entryAt 79 100)) = AlertKind.quiet ∧
    alertKind (alertFor (entryAt 80 100)) = AlertKind.near ∧
    alertKind (alertFor (entryAt 101 100)) = AlertKind.exceededAlert ∧
    alertKind (alertFor (entryAt 5 0)) = AlertKind.exceededAlert ∧
    alertKind (alertFor (entryAt 0 0)) = AlertKind.quiet ∧
    percentageUsed (entryAt 5 0) = 0 :=
  ⟨budget_alert_thresholds.2.2 (entryAt 79 100) (by decide) (by decide),
    by decide, by decide, by decide, by decide, by decide,
    budget_alert_thresholds.2.1 (entryAt 5 0) (by decide)⟩

/-- Claim C2: every entry of `get_active_budgets_with_spending` has `spent`
equal to the sum of the user's expense transactions in the budget's
category within [budget.start, budget.end] (both ends inclusive),
`remaining = limit - spent` (which may be negative), and `exceeded` true
exactly when `spent > limit`; and every active budget of the user whose end
date is at or after now (with an existing category row) yields such an
entry. -/
theorem budget_status_spending_correct (store : Store) (userId : Nat)
    (now : DateTime) :
    (∀ e ∈ getActiveBudgetsWithSpending store userId now,
      e.spent_amount = specBudgetSpent store userId e.budget ∧
      e.remaining_amount = e.budget.amount - e.spent_amount ∧
      (e.is_exceeded = true ↔ e.budget.amount < e.spent_amount)) ∧
    (∀ b ∈ store.budgets, b.user_id = userId → b.is_active = true →
      dtLe now b.end_date →
      (∃ c ∈ store.categories, c.id = b.category_id) →
      ∃ e ∈ getActiveBudgetsWithSpending store userId now, e.budget = b) := by
  constructor
  · intro e he
    rw [getActiveBudgetsWithSpending] at he
    simp only [List.mem_filterMap] at he
    obtain ⟨b, hb, hmap⟩ := he
    rw [Option.map_eq_some'] at hmap
    obtain ⟨c, hc, hgc⟩ := hmap
    subst hgc
    dsimp only
    have hfil : store.transactions.filter (fun t =>
        decide (t.user_id = userId) && decide (t.category_id = b.category_id) &&
          decide (t.transaction_type = Kind.expense) &&
          decide (dtLe b.start_date t.transaction_date) &&
          decide (dtLe t.transaction_date b.end_date)) =
        store.transactions.filter (fun t =>
          decide (t.user_id = userId ∧ t.transaction_type = Kind.expense ∧
            t.category_id = b.category_id ∧
            dtLe b.start_date t.transaction_date ∧
            dtLe t.transaction_date b.end_date)) := by
      apply List.filter_congr
      intro t _
      rw [Bool.eq_iff_iff]
      simp only [Bool.and_eq_true, decide_eq_true_iff]
      tauto
    refine ⟨?_, ?_, ?_⟩
    · rw [qsum_eq, specBudgetSpent, hfil]
    · rw [qsub_eq]
    · simp
  · intro b hb huser hactive hend hcat
    obtain ⟨c, hcmem, hcid⟩ := hcat
    have hbfil : b ∈ store.budgets.filter (fun b2 =>
        decide (b2.user_id = userId) && b2.is_active && decide (dtLe now b2.end_date)) :=
      List.mem_filter.mpr ⟨hb, by simp [huser, hactive, hend]⟩
    have hbsort : b ∈ List.insertionSort (fun a b2 => nameLe a.name b2.name)
        (store.budgets.filter (fun b2 =>
          decide (b2.user_id = userId) && b2.is_active &&
            decide (dtLe now b2.end_date))) :=
      (List.perm_insertionSort _ _).mem_iff.mpr hbfil
    have hfindc : (store.categories.find? (fun c2 => decide (c2.id = b.category_id))).isSome :=
      List.find?_isSome.mpr ⟨c, hcmem, by simp [hcid]⟩
    obtain ⟨c2, hc2⟩ := Option.isSome_iff_exists.mp hfindc
    rw [getActiveBudgetsWithSpending]
    exact ⟨_, List.mem_filterMap.mpr ⟨b, hbsort, by rw [hc2]; rfl⟩, rfl⟩

/-- Witness for claim C2 on the spec's own example numbers: limit 10000
with expense total 3000 yields spent 3000, remaining 7000, not exceeded;
expense total 10500 yields spent 10500, remaining −500, exceeded. -/
theorem budget_status_spending_witness :
    demoEntry ∈ getActiveBudgetsWithSpending demoStore 1 demoNow ∧
    demoEntry.spent_amount = specBudgetSpent demoStore 1 demoEntry.budget ∧
    demoEntry.remaining_amount = demoEntry.budget.amount - demoEntry.spent_amount ∧
    demoEntry.spent_amount = 3000 ∧ demoEntry.remaining_amount = 7000 ∧
    demoEntry.is_exceeded = false ∧
    demoEntryOver ∈ getActiveBudgetsWithSpending demoStoreOver 1 demoNow ∧
    (demoEntryOver.is_exceeded = true ↔
      demoEntryOver.budget.amount < demoEntryOver.spent_amount) ∧
    demoEntryOver.spent_amount = 10500 ∧ demoEntryOver.remaining_amount = -500 ∧
    demoEntryOver.is_exceeded = true :=
  ⟨by decide,
    ((budget_status_spending_correct demoStore 1 demoNow).1 demoEntry (by decide)).1,
    ((budget_status_spending_correct demoStore 1 demoNow).1 demoEntry (by decide)).2.1,
    by decide, by decide, by decide,
    by decide,
    ((budget_status_spending_correct demoStoreOver 1 demoNow).1 demoEntryOver
      (by decide)).2.2,
    by decide, by decide, by decide⟩

/-- Claim C5 counterexample: an expense of 500 stamped exactly at the first
instant of February 2024 is excluded from January's totals (end-exclusive
window) yet appears in January's top expense categories, because the
top-category aggregation filters with `transaction_date <= end_date`
(end-inclusive); so it does not count "only in February's summary" as the
claim states. -/
theorem monthly_summary_boundary :
    (getMonthlySummary demoStoreFeb 1 2024 1).total_expenses = 0 ∧
    (⟨"Еда", 500, 1⟩ : CatSum) ∈
      (getMonthlySummary demoStoreFeb 1 2024 1).top_expense_categories ∧
    (getMonthlySummary demoStoreFeb 1 2024 2).total_expenses = 500 ∧
    (getMonthlySummary demoStoreFeb 1 2024 1).balance = 0 := by
  refine ⟨by decide, by decide, by decide, by decide⟩

/-- The next-month first instant computed inside the monthly summary is the
spec-side one. -/
theorem nextStart_if (year month : Nat) :
    (if month = 12 then (⟨year + 1, 1, 1, 0, 0, 0⟩ : DateTime)
      else ⟨year, month + 1, 1, 0, 0, 0⟩) = specNextMonthStart year month := by
  by_cases hm : month = 12 <;>
    simp [hm, specNextMonthStart, specNextYM, specMonthStart]

/-- Sums over equal filters agree (executable sum against spec sum). -/
theorem sum_filter_congr {p q : TransactionRow → Bool} (l : List TransactionRow)
    (h : ∀ t, p t = q t) :
    qsum ((l.filter p).map (fun t => t.amount)) =
      ((l.filter q).map (fun t => t.amount)).sum := by
  rw [qsum_eq, List.filter_congr (fun t _ => h t)]

/-- Claim C5 (amended): the monthly summary's income and expense totals sum
the user's transactions over the end-exclusive window from the first
instant of the month to the first instant of the next month (with correct
December-to-January rollover), and balance = income − expenses; the top
expense categories list has at most 5 entries, is ordered by total
descending, and each entry reports an existing category together with the
sum of the user's expense transactions in it over the end-INCLUSIVE window
[first instant of the month, first instant of the next month] — so a
transaction at exactly the first instant of the next month is excluded from
the totals but included in the top-category figures. -/
theorem monthly_summary_amended (store : Store) (userId year month : Nat)
    (h1 : 1 ≤ month) (h2 : month ≤ 12) :
    (getMonthlySummary store userId year month).total_income =
      specMonthlyTotal store userId Kind.income year month ∧
    (getMonthlySummary store userId year month).total_expenses =
      specMonthlyTotal store userId Kind.expense year month ∧
    (getMonthlySummary store userId year month).balance =
      (getMonthlySummary store userId year month).total_income -
        (getMonthlySummary store userId year month).total_expenses ∧
    (getMonthlySummary store userId year month).top_expense_categories.length ≤ 5 ∧
    List.Sorted catSumGE
      (getMonthlySummary store userId year month).top_expense_categories ∧
    (∀ e ∈ (getMonthlySummary store userId year month).top_expense_categories,
      ∃ c ∈ store.categories, e.category_name = c.name ∧
        e.total_amount = specCategoryTotalInclusive store userId c year month ∧
        0 < e.transaction_count) := by
  have hwin := nextStart_if year month
  refine ⟨?_, ?_, ?_, ?_, ?_, ?_⟩
  · simp only [getMonthlySummary, hwin, specMonthlyTotal]
    exact sum_filter_congr _ (fun t => by
      rw [Bool.eq_iff_iff]
      simp only [Bool.and_eq_true, decide_eq_true_iff, specMonthStart]
      tauto)
  · simp only [getMonthlySummary, hwin, specMonthlyTotal]
    exact sum_filter_congr _ (fun t => by
      rw [Bool.eq_iff_iff]
      simp only [Bool.and_eq_true, decide_eq_true_iff, specMonthStart]
      tauto)
  · simp only [getMonthlySummary]
    exact qsub_eq _ _
  · simp only [getMonthlySummary]
    exact List.length_take_le 5 _
  · simp only [getMonthlySummary, getTransactionsSumByCategory]
    exact (List.sorted_insertionSort catSumGE _).sublist (List.take_sublist 5 _)
  · intro e he
    simp only [getMonthlySummary, getTransactionsSumByCategory, hwin] at he
    have he2 := List.mem_of_mem_take he
    have he3 := (List.perm_insertionSort catSumGE _).mem_iff.mp he2
    simp only [List.mem_filterMap] at he3
    obtain ⟨c, hcmem, hsome⟩ := he3
    by_cases hgl : ((store.transactions.filter (fun t =>
        decide (t.user_id = userId) && decide (t.transaction_type = Kind.expense) &&
          decide (dtLe ⟨year, month, 1, 0, 0, 0⟩ t.transaction_date) &&
          decide (dtLe t.transaction_date (specNextMonthStart year month)))).filter
        (fun t => decide (t.category_id = c.id))).isEmpty
    · rw [if_pos hgl] at hsome
      cases hsome
    · rw [if_neg hgl] at hsome
      obtain rfl := Option.some.inj hsome
      have hfil : store.transactions.filter (fun t =>
          decide (t.category_id = c.id) &&
            (decide (t.user_id = userId) && decide (t.transaction_type = Kind.expense) &&
              decide (dtLe ⟨year, month, 1, 0, 0, 0⟩ t.transaction_date) &&
              decide (dtLe t.transaction_date (specNextMonthStart year month)))) =
          store.transactions.filter (fun t =>
            decide (t.user_id = userId ∧ t.transaction_type = Kind.expense ∧
              t.category_id = c.id ∧
              dtLe (specMonthStart year month) t.transaction_date ∧
              dtLe t.transaction_date (specNextMonthStart year month))) :=
        List.filter_congr (fun t _ => by
          rw [Bool.eq_iff_iff]
          simp only [Bool.and_eq_true, decide_eq_true_iff, specMonthStart]
          tauto)
      refine ⟨c, hcmem, rfl, ?_, ?_⟩
      · show qsum _ = _
        rw [qsum_eq, List.filter_filter, hfil, specCategoryTotalInclusive]
      · show 0 < List.length _
        refine List.length_pos.mpr (fun hnil => hgl ?_)
        rw [hnil]
        rfl

/-- Witness for the amended claim C5 on the February-boundary fixture. -/
theorem monthly_summary_amended_witness :
    (getMonthlySummary demoStoreFeb 1 2024 1).total_expenses =
      specMonthlyTotal demoStoreFeb 1 Kind.expense 2024 1 ∧
    (getMonthlySummary demoStoreFeb 1 2024 1).top_expense_categories.length ≤ 5 ∧
    (getMonthlySummary demoStoreFeb 1 2024 1).balance =
      (getMonthlySummary demoStoreFeb 1 2024 1).total_income -
        (getMonthlySummary demoStoreFeb 1 2024 1).total_expenses :=
  ⟨(monthly_summary_amended demoStoreFeb 1 2024 1 (by decide) (by decide)).2.1,
    (monthly_summary_amended demoStoreFeb 1 2024 1 (by decide) (by decide)).2.2.2.1,
    (monthly_summary_amended demoStoreFeb 1 2024 1 (by decide) (by decide)).2.2.1⟩
